import Mathlib

/-!
Verification of the Subscription & Entitlement Engine of a barbershop
booking backend.  The definitions below are a shallow embedding of the
JavaScript source: timestamps are `Int` milliseconds since the epoch,
database tables are association lists, each HTTP handler is modelled as a
pure function from its external inputs (the already-fetched provider
responses, the current clock, the usage snapshot) and the database state
to the new database state and an outcome.  Provider network calls,
authentication and response serialisation are outside the engine and are
passed in as parameters.
-/

/-- Milliseconds in one day, as used by `30 * 24 * 60 * 60 * 1000` in the source. -/
def msPerDay : Int := 86400000

/-- The fixed 30 day paid period. -/
def dur30 : Int := 30 * msPerDay

/-- The fixed 5 day grace window. -/
def dur5 : Int := 5 * msPerDay

/-- JavaScript string truthiness for a nullable string: `null`, `undefined`
and the empty string are falsy. -/
def jsStrTruthy (o : Option String) : Bool :=
  match o with
  | none => false
  | some s => s != ""

/-- JavaScript `a || b` on nullable strings. -/
def jsOrStr (a b : Option String) : Option String :=
  if jsStrTruthy a then a else b

/-- Character-level lower casing (JS `toLowerCase` restricted to ASCII,
which covers every status and code literal in the engine). -/
def charLower (c : Char) : Char :=
  if c.isUpper then c.toLower else c

/-- Character-level upper casing. -/
def charUpper (c : Char) : Char :=
  if c.isLower then c.toUpper else c

/-- JS `String.prototype.toLowerCase`. -/
def jsToLower (s : String) : String := ⟨s.data.map charLower⟩

/-- JS `String.prototype.toUpperCase`. -/
def jsToUpper (s : String) : String := ⟨s.data.map charUpper⟩

/-- List-level prefix test used to model JS `startsWith`. -/
def listStartsWith : List Char → List Char → Bool
  | _, [] => true
  | [], _ :: _ => false
  | c :: cs, d :: ds => c == d && listStartsWith cs ds

/-- JS `String.prototype.startsWith`. -/
def jsStartsWith (s p : String) : Bool := listStartsWith s.data p.data

/-- List-level substring test used to model JS `includes`. -/
def listContainsSub (l p : List Char) : Bool :=
  match l with
  | [] => listStartsWith [] p
  | _ :: rest => listStartsWith l p || listContainsSub rest p

/-- JS `String.prototype.includes`. -/
def jsIncludes (s p : String) : Bool := listContainsSub s.data p.data

/-- One row of the `subscriptions` table (columns the engine reads or writes). -/
structure Subscription where
  status : String
  plan_code : Option String
  billing_provider : Option String
  paypal_subscription_id : Option String
  paypal_subscription_status : Option String
  pending_plan_code : Option String
  pending_plan_effective_at : Option Int
  current_period_start : Option Int
  current_period_end : Option Int
  grace_period_end : Option Int
  last_alert_sent_at : Option Int
deriving Repr, DecidableEq

/-- A subscription row with every nullable column null, used as a base for
concrete test rows. -/
def sub0 : Subscription :=
  { status := "active"
    plan_code := none
    billing_provider := none
    paypal_subscription_id := none
    paypal_subscription_status := none
    pending_plan_code := none
    pending_plan_effective_at := none
    current_period_start := none
    current_period_end := none
    grace_period_end := none
    last_alert_sent_at := none }

/-- The fresh row inserted by `getOrCreateOwnerSubscription` when an owner
has no subscription yet: a 30 day active period anchored at `now`. -/
def freshSubscription (now : Int) : Subscription :=
  { sub0 with
      status := "active"
      current_period_start := some now
      current_period_end := some (now + dur30)
      grace_period_end := some (now + dur30 + dur5) }

/-- The derived entitlement state returned by `computeSubscriptionState`. -/
structure SubState where
  now : Int
  periodEnd : Option Int
  graceEnd : Option Int
  isActive : Bool
  isInGrace : Bool
  isBlocked : Bool
deriving Repr, DecidableEq

/-- `computeSubscriptionState` from the subscription service:
`isActive = periodEnd != null && now <= periodEnd`,
`isInGrace = !isActive && graceEnd != null && now <= graceEnd`,
`isBlocked = !isActive && !isInGrace`. -/
def computeSubscriptionState (now : Int) (sub : Subscription) : SubState :=
  let periodEnd := sub.current_period_end
  let graceEnd := sub.grace_period_end
  let isActive := match periodEnd with
    | some pe => decide (now ≤ pe)
    | none => false
  let isInGrace := !isActive && (match graceEnd with
    | some ge => decide (now ≤ ge)
    | none => false)
  let isBlocked := !isActive && !isInGrace
  { now := now, periodEnd := periodEnd, graceEnd := graceEnd,
    isActive := isActive, isInGrace := isInGrace, isBlocked := isBlocked }

/-- Shop/professional limits of a pricing tier. -/
structure TierLimits where
  shops : Int
  professionals : Int
deriving Repr, DecidableEq

/-- One row of the static `PLAN_TIERS` table. -/
structure PlanTier where
  code : String
  name : String
  priceDop : Int
  limits : TierLimits
deriving Repr, DecidableEq

/-- The static 4-row tier table, in ascending limit order, as in the source. -/
def PLAN_TIERS : List PlanTier :=
  [ { code := "basic_1", name := "Básico 1", priceDop := 1000, limits := { shops := 1, professionals := 2 } }
  , { code := "basic_2", name := "Básico 2", priceDop := 1500, limits := { shops := 1, professionals := 3 } }
  , { code := "pro", name := "Pro", priceDop := 2000, limits := { shops := 2, professionals := 6 } }
  , { code := "premium", name := "Premium", priceDop := 2500, limits := { shops := 3, professionals := 12 } } ]

/-- The `VALID_PLAN_CODES` set. -/
def VALID_PLAN_CODES : List String := ["basic_1", "basic_2", "pro", "premium"]

/-- `getTierForCode`: look a plan code up in the static table. -/
def getTierForCode (planCode : Option String) : Option PlanTier :=
  match planCode with
  | some c => PLAN_TIERS.find? (fun t => t.code == c)
  | none => none

/-- A live usage snapshot: counts of active shops and professionals. -/
structure Usage where
  shopCount : Int
  professionalCount : Int
deriving Repr, DecidableEq

/-- The predicate `shops <= t.limits.shops && pros <= t.limits.professionals`
used by `selectTierForUsage` to pick a tier. -/
def tierFits (shops pros : Int) (t : PlanTier) : Bool :=
  decide (shops ≤ t.limits.shops) && decide (pros ≤ t.limits.professionals)

/-- Result record of `selectTierForUsage`. -/
structure TierSelection where
  tier : Option PlanTier
  isOverLimit : Bool
  overageShops : Int
  overageProfessionals : Int
  normShops : Int
  normProfessionals : Int
deriving Repr, DecidableEq

/-- Fallback tier value for the (unreachable) empty-table accessors. -/
def dummyTier : PlanTier :=
  { code := "", name := "", priceDop := 0, limits := { shops := 0, professionals := 0 } }

/-- `selectTierForUsage`: clamp the counts at 0, take the first tier of the
table whose limits accommodate both, and compute the overage against the
last (maximum) tier. -/
def selectTierForUsage (u : Usage) : TierSelection :=
  let shops := max 0 u.shopCount
  let pros := max 0 u.professionalCount
  let tier := PLAN_TIERS.find? (tierFits shops pros)
  let maxTier := PLAN_TIERS.getLastD dummyTier
  let overShops := max 0 (shops - maxTier.limits.shops)
  let overPros := max 0 (pros - maxTier.limits.professionals)
  let isOverLimit := tier.isNone && (decide (overShops > 0) || decide (overPros > 0))
  { tier := tier, isOverLimit := isOverLimit,
    overageShops := overShops, overageProfessionals := overPros,
    normShops := shops, normProfessionals := pros }

/-- Result record of `computeMonthlyPriceDop`. -/
structure Pricing where
  tier : Option PlanTier
  total : Option Int
  isOverLimit : Bool
  overageShops : Int
  overageProfessionals : Int
deriving Repr, DecidableEq

/-- `computeMonthlyPriceDop`: over limit reports a null total, otherwise the
selected tier's fixed price (with the first tier as a fallback that is dead
code whenever the selection is not over limit). -/
def computeMonthlyPriceDop (u : Usage) : Pricing :=
  let s := selectTierForUsage u
  if s.tier.isNone && s.isOverLimit then
    { tier := none, total := none, isOverLimit := true,
      overageShops := s.overageShops, overageProfessionals := s.overageProfessionals }
  else
    let tier := s.tier.getD (PLAN_TIERS.headD dummyTier)
    { tier := some tier, total := some tier.priceDop, isOverLimit := false,
      overageShops := s.overageShops, overageProfessionals := s.overageProfessionals }

/-- The start instant chosen by the renewal: the later of `now` and the
previous period end (or `now` when there is no previous period). -/
def renewStart (now : Int) (sub : Subscription) : Int :=
  match sub.current_period_end with
  | some ce => max now ce
  | none => now

/-- `renewSubscription30Days` (subscription-rail version), as a pure
transform of the fetched row: resolve the plan code as
`pending_plan_code || plan_code || usage tier code || null`, compute
`start = currentEnd > now ? currentEnd : now`, and write
`status = 'active'`, `plan_code = COALESCE(resolved, plan_code)`,
`current_period_start = start`, `current_period_end = start + 30d`,
`grace_period_end = period_end + 5d`.  `pending_plan_code` is not touched. -/
def renewSubscription30Days (now : Int) (usage : Usage) (sub : Subscription) : Subscription :=
  let pricing := computeMonthlyPriceDop usage
  let tierCode : Option String := pricing.tier.map (fun t => t.code)
  let planCode : Option String :=
    if jsStrTruthy sub.pending_plan_code then sub.pending_plan_code
    else if jsStrTruthy sub.plan_code then sub.plan_code
    else if jsStrTruthy tierCode then tierCode
    else none
  let start :=
    match sub.current_period_end with
    | some ce => if ce > now then ce else now
    | none => now
  let periodEnd := start + dur30
  let graceEnd := periodEnd + dur5
  { sub with
      status := "active"
      plan_code := match planCode with
        | some c => some c
        | none => sub.plan_code
      current_period_start := some start
      current_period_end := some periodEnd
      grace_period_end := some graceEnd }

/-- One row of the append-only `payments` ledger (the `metadata` blob, an
opaque provenance object, is not modelled). -/
structure Payment where
  owner_id : Int
  provider : String
  status : String
  amount : Option Int
  currency : Option String
  provider_payment_id : Option String
  paid_at : Option Int
deriving Repr, DecidableEq

/-- One row of `manual_payment_reports`. -/
structure Report where
  id : Int
  owner_id : Int
  amount : Option Int
  currency : Option String
  reference_text : Option String
  proof_url : Option String
  status : String
  approved_by : Option Int
  rejected_by : Option Int
  decided_at : Option Int
deriving Repr, DecidableEq

/-- One row of `notifications` (only the columns the engine writes). -/
structure NotificationRow where
  user_id : Int
  ntype : String
  payloadPeriodEnd : Option Int
  payloadGraceEnd : Option Int
deriving Repr, DecidableEq

/-- The database state touched by the engine: the per-owner subscription
rows, the payment ledger, the manual reports and the notifications. -/
structure DB where
  subs : List (Int × Subscription)
  payments : List Payment
  reports : List Report
  notifications : List NotificationRow
deriving Repr, DecidableEq

/-- `SELECT * FROM subscriptions WHERE owner_id = $1 LIMIT 1`. -/
def findSub (db : DB) (ownerId : Int) : Option Subscription :=
  (db.subs.find? (fun e => e.1 == ownerId)).map (fun e => e.2)

/-- `getOrCreateOwnerSubscription`: return the existing row, or insert and
return a fresh 30 day active row. -/
def getOrCreateOwnerSubscription (now : Int) (ownerId : Int) (db : DB) :
    Subscription × DB :=
  match findSub db ownerId with
  | some s => (s, db)
  | none =>
      let s := freshSubscription now
      (s, { db with subs := db.subs ++ [(ownerId, s)] })

/-- `UPDATE subscriptions SET ... WHERE owner_id = $1`. -/
def updateOwnerSub (db : DB) (ownerId : Int) (f : Subscription → Subscription) : DB :=
  { db with subs := db.subs.map (fun e => if e.1 == ownerId then (e.1, f e.2) else e) }

/-- `renewSubscription30Days` as it runs against the database: fetch or
create the row, then apply the row transform. -/
def renewSubscription30DaysOwner (now : Int) (usage : Usage) (ownerId : Int) (db : DB) :
    Subscription × DB :=
  let fetched := getOrCreateOwnerSubscription now ownerId db
  let r := renewSubscription30Days now usage fetched.1
  (r, updateOwnerSub fetched.2 ownerId (fun _ => r))

/-- Outcome of `paypalConfirmSubscription` (after the provider re-fetch). -/
inductive ConfirmOutcome
  | invalidResponse
  | mismatch
  | statusSynced
  | renewedActive
deriving Repr, DecidableEq

/-- `paypalConfirmSubscription`, modelled after the provider subscription has
been re-fetched: `ppStatus` is the provider status, `planCodeFromPaypal` the
local code resolved from the provider plan id, `nextBillingTime` the parsed
`billing_info.next_billing_time`.  A thrown error or explicit `ROLLBACK`
returns the original database. -/
def paypalConfirmSubscription (now : Int) (ownerId : Int) (subscriptionId : String)
    (ppStatus : String) (planCodeFromPaypal : Option String)
    (nextBillingTime : Option Int) (db : DB) : DB × ConfirmOutcome :=
  let status := jsToUpper ppStatus
  if status == "" then (db, .invalidResponse)
  else
    let fetched := getOrCreateOwnerSubscription now ownerId db
    let sub := fetched.1
    if (sub.paypal_subscription_id.getD "") != subscriptionId then
      (db, .mismatch)
    else if status != "ACTIVE" then
      let db2 := updateOwnerSub fetched.2 ownerId (fun s =>
        { s with billing_provider := some "paypal",
                 paypal_subscription_status := some status })
      (db2, .statusSynced)
    else
      let resolvedPlanCode :=
        if jsStrTruthy planCodeFromPaypal then planCodeFromPaypal
        else if jsStrTruthy sub.pending_plan_code then sub.pending_plan_code
        else if jsStrTruthy sub.plan_code then sub.plan_code
        else none
      let periodEnd :=
        match nextBillingTime with
        | some t => t
        | none => now + dur30
      let graceEnd := periodEnd + dur5
      let db2 := updateOwnerSub fetched.2 ownerId (fun s =>
        { s with status := "active"
                 plan_code := match resolvedPlanCode with
                   | some c => some c
                   | none => s.plan_code
                 billing_provider := some "paypal"
                 paypal_subscription_status := some status
                 pending_plan_code := none
                 pending_plan_effective_at := none
                 current_period_start := some now
                 current_period_end := some periodEnd
                 grace_period_end := some graceEnd })
      (db2, .renewedActive)

/-- The fields of `event.resource` the webhook reads (the nested amount
object is flattened to its extracted value and currency). -/
structure WebhookResource where
  billing_agreement_id : Option String
  rid : Option String
  subscription_id : Option String
  sale_id : Option String
  transaction_id : Option String
  status : Option String
  amount : Option Int
  currency : Option String
  time : Option Int
deriving Repr, DecidableEq

/-- A signature-verified webhook event. -/
structure WebhookEvent where
  event_type : String
  resource : WebhookResource
deriving Repr, DecidableEq

/-- `resource?.billing_agreement_id || resource?.id || resource?.subscription_id || null`. -/
def webhookSubscriptionId (r : WebhookResource) : Option String :=
  if jsStrTruthy r.billing_agreement_id then r.billing_agreement_id
  else if jsStrTruthy r.rid then r.rid
  else if jsStrTruthy r.subscription_id then r.subscription_id
  else none

/-- `resource?.id || resource?.sale_id || resource?.transaction_id || null`. -/
def webhookTransactionId (r : WebhookResource) : Option String :=
  if jsStrTruthy r.rid then r.rid
  else if jsStrTruthy r.sale_id then r.sale_id
  else if jsStrTruthy r.transaction_id then r.transaction_id
  else none

/-- The payment-success event-type test of the webhook. -/
def isPaymentSuccessEvent (eventType : String) : Bool :=
  eventType == "BILLING.SUBSCRIPTION.PAYMENT.SUCCEEDED" ||
  eventType == "PAYMENT.CAPTURE.COMPLETED" ||
  eventType == "PAYMENT.SALE.COMPLETED" ||
  (jsIncludes eventType "PAYMENT" &&
    !jsIncludes eventType "FAILED" &&
    !jsIncludes eventType "DENIED" &&
    !jsIncludes eventType "REVERSED" &&
    !jsIncludes eventType "REFUNDED")

/-- The webhook handler's JSON response. -/
structure WebhookResponse where
  httpStatus : Int
  received : Bool
  renewed : Bool
deriving Repr, DecidableEq

/-- `paypalWebhook` after signature verification succeeded.
`planSyncFromPaypal` is the result of the best-effort provider plan lookup
(`none` models a failed fetch or an unmapped plan id), `usage` the usage
snapshot read inside the renewal. -/
def paypalWebhook (now : Int) (usage : Usage) (planSyncFromPaypal : Option String)
    (ev : WebhookEvent) (db : DB) : DB × WebhookResponse :=
  let eventType := jsToUpper ev.event_type
  let resource := ev.resource
  let sidOpt := webhookSubscriptionId resource
  let tidOpt := webhookTransactionId resource
  if !jsStrTruthy sidOpt then (db, { httpStatus := 200, received := true, renewed := false })
  else
    let sid := sidOpt.getD ""
    match db.subs.find? (fun e => e.2.paypal_subscription_id == some sid) with
    | none => (db, { httpStatus := 200, received := true, renewed := false })
    | some entry =>
      let ownerId := entry.1
      let db1 :=
        if jsStartsWith eventType "BILLING.SUBSCRIPTION." then
          let statusUp := jsToUpper (resource.status.getD "")
          let newStatus := if statusUp != "" then statusUp else eventType
          updateOwnerSub db ownerId (fun s =>
            { s with paypal_subscription_status := some newStatus,
                     billing_provider := some "paypal" })
        else db
      if isPaymentSuccessEvent eventType && jsStrTruthy tidOpt then
        let tid := tidOpt.getD ""
        let db2 :=
          match planSyncFromPaypal with
          | some pc => updateOwnerSub db1 ownerId (fun s => { s with plan_code := some pc })
          | none => db1
        let alreadyRecorded := db2.payments.any (fun p =>
          p.provider == "paypal_subscription" && p.provider_payment_id == some tid)
        if !alreadyRecorded then
          let renewed := renewSubscription30DaysOwner now usage ownerId db2
          let pay : Payment :=
            { owner_id := ownerId
              provider := "paypal_subscription"
              status := "confirmed"
              amount := resource.amount
              currency := resource.currency.map jsToUpper
              provider_payment_id := some tid
              paid_at := some (resource.time.getD now) }
          let db3 := renewed.2
          let db4 := { db3 with payments := db3.payments ++ [pay] }
          let db5 := updateOwnerSub db4 ownerId (fun s =>
            { s with status := "active", billing_provider := some "paypal" })
          (db5, { httpStatus := 200, received := true, renewed := true })
        else (db2, { httpStatus := 200, received := true, renewed := false })
      else (db1, { httpStatus := 200, received := true, renewed := false })

/-- The capture object extracted from the provider capture response. -/
structure CaptureData where
  status : String
  captureId : Option String
  amount : Option Int
  currency : Option String
  create_time : Option Int
deriving Repr, DecidableEq

/-- Outcome of `paypalCaptureOrder`. -/
inductive CaptureOutcome
  | missingOrder
  | notCompleted
  | success
deriving Repr, DecidableEq

/-- `paypalCaptureOrder` after the provider capture call: require provider
status `COMPLETED`, then renew and append one ledger row whose provider
payment id is `captureId || orderId`.  No `(provider, provider_payment_id)`
idempotency check is performed on this path. -/
def paypalCaptureOrder (now : Int) (usage : Usage) (ownerId : Int) (orderId : String)
    (envCurrency : String) (cap : CaptureData) (db : DB) : DB × CaptureOutcome :=
  if orderId == "" then (db, .missingOrder)
  else
    let status := jsToUpper cap.status
    if status != "COMPLETED" then (db, .notCompleted)
    else
      let currency :=
        if jsStrTruthy cap.currency then cap.currency.getD "" else jsToUpper envCurrency
      let renewed := renewSubscription30DaysOwner now usage ownerId db
      let ppid := if jsStrTruthy cap.captureId then cap.captureId.getD "" else orderId
      let pay : Payment :=
        { owner_id := ownerId
          provider := "paypal"
          status := "confirmed"
          amount := cap.amount
          currency := some currency
          provider_payment_id := some ppid
          paid_at := some (cap.create_time.getD now) }
      ({ renewed.2 with payments := renewed.2.payments ++ [pay] }, .success)

/-- `SELECT * FROM manual_payment_reports WHERE id = $1 FOR UPDATE`. -/
def findReport (db : DB) (rid : Int) : Option Report :=
  db.reports.find? (fun r => r.id == rid)

/-- `UPDATE manual_payment_reports SET ... WHERE id = $1`. -/
def updateReport (db : DB) (rid : Int) (f : Report → Report) : DB :=
  { db with reports := db.reports.map (fun r => if r.id == rid then f r else r) }

/-- Outcome of an admin decision on a manual payment report. -/
inductive DecisionOutcome
  | notFound
  | alreadyProcessed
  | ok
deriving Repr, DecidableEq

/-- `approveManualPaymentReport`: row-locked fetch, conflict unless the
report is still pending, then renew, append one `manual` ledger row and
mark the report approved with the deciding admin and the decision time. -/
def approveManualPaymentReport (now : Int) (usage : Usage) (adminId : Int)
    (rid : Int) (db : DB) : DB × DecisionOutcome :=
  match findReport db rid with
  | none => (db, .notFound)
  | some report =>
    if jsToLower report.status != "pending" then (db, .alreadyProcessed)
    else
      let ownerId := report.owner_id
      let renewed := renewSubscription30DaysOwner now usage ownerId db
      let pay : Payment :=
        { owner_id := ownerId
          provider := "manual"
          status := "confirmed"
          amount := report.amount
          currency := report.currency
          provider_payment_id := none
          paid_at := some now }
      let db2 := { renewed.2 with payments := renewed.2.payments ++ [pay] }
      let db3 := updateReport db2 rid (fun r =>
        { r with status := "approved", approved_by := some adminId, decided_at := some now })
      (db3, .ok)

/-- `rejectManualPaymentReport`: row-locked fetch, conflict unless pending,
then mark rejected; no renewal and no ledger row. -/
def rejectManualPaymentReport (now : Int) (adminId : Int) (rid : Int) (db : DB) :
    DB × DecisionOutcome :=
  match findReport db rid with
  | none => (db, .notFound)
  | some report =>
    if jsToLower report.status != "pending" then (db, .alreadyProcessed)
    else
      let db1 := updateReport db rid (fun r =>
        { r with status := "rejected", rejected_by := some adminId, decided_at := some now })
      (db1, .ok)

/-- UTC calendar-day key of a timestamp, modelling the comparison of
`toISOString().slice(0, 10)` values. -/
def dayKey (ms : Int) : Int := Int.fdiv ms msPerDay

/-- `ensureDailySubscriptionExpiredNotification`: on a read where the state
is not Active (and a period end exists), insert one expiry notification and
stamp `last_alert_sent_at = now`, unless one was already sent today. -/
def ensureDailySubscriptionExpiredNotification (now : Int) (ownerId : Int)
    (sub : Subscription) (db : DB) : DB :=
  let state := computeSubscriptionState now sub
  match state.periodEnd with
  | none => db
  | some _ =>
    if state.isActive then db
    else
      let sameDay :=
        match sub.last_alert_sent_at with
        | some la => dayKey la == dayKey now
        | none => false
      if sameDay then db
      else
        let n : NotificationRow :=
          { user_id := ownerId
            ntype := "SUBSCRIPTION_EXPIRED"
            payloadPeriodEnd := state.periodEnd
            payloadGraceEnd := state.graceEnd }
        let db1 := { db with notifications := db.notifications ++ [n] }
        updateOwnerSub db1 ownerId (fun s => { s with last_alert_sent_at := some now })

/-- The payload attached to a 402 payment-required failure. -/
structure GateDetails where
  ownerId : Int
  periodEnd : Option Int
  graceEnd : Option Int
deriving Repr, DecidableEq

/-- Result of an enforcement-gate call: the live state for the caller, or a
typed failure carrying an HTTP status (402 carries the owner id and both
boundary timestamps). -/
inductive GateResult
  | ok (ownerId : Int) (subscription : Subscription) (state : SubState)
  | err (httpStatus : Int) (details : Option GateDetails)
deriving Repr, DecidableEq

/-- The shared gate body: get-or-create, compute state, fire the daily
notification side effect, then fail 402 when blocked or return the state. -/
def gateOwner (now : Int) (ownerId : Int) (db : DB) : DB × GateResult :=
  let fetched := getOrCreateOwnerSubscription now ownerId db
  let subscription := fetched.1
  let state := computeSubscriptionState now subscription
  let db2 := ensureDailySubscriptionExpiredNotification now ownerId subscription fetched.2
  if state.isBlocked then
    (db2, .err 402 (some { ownerId := ownerId, periodEnd := state.periodEnd, graceEnd := state.graceEnd }))
  else
    (db2, .ok ownerId subscription state)

/-- `enforceOwnerSubscriptionForManagement`. -/
def enforceOwnerSubscriptionForManagement (now : Int) (ownerId : Option Int) (db : DB) :
    DB × GateResult :=
  match ownerId with
  | none => (db, .err 400 none)
  | some oid => gateOwner now oid db

/-- A row of `barber_shops` as read by the booking gate. -/
structure Shop where
  id : Int
  owner_id : Option Int
  deleted : Bool
deriving Repr, DecidableEq

/-- `enforceShopSubscriptionForBooking`: resolve the (non-deleted) shop to
its owner (404 when absent, 409 when ownerless), then gate by owner. -/
def enforceShopSubscriptionForBooking (now : Int) (shops : List Shop) (shopId : Int)
    (db : DB) : DB × GateResult :=
  match shops.find? (fun s => s.id == shopId && !s.deleted) with
  | none => (db, .err 404 none)
  | some shop =>
    match shop.owner_id with
    | none => (db, .err 409 none)
    | some oid => gateOwner now oid db

/-- Outcome of `paypalCreateSubscription` (after request validation and the
provider create call). -/
inductive CreateSubOutcome
  | invalidPlanCode
  | missingPlanConfig
  | overLimit
  | usageExceedsSelectedTier
  | accepted (pendingPlanCode : String)
deriving Repr, DecidableEq

/-- The validation phase of `paypalCreateSubscription`: reject an unknown
plan code (400), missing provider plan configuration (500), a hard
over-limit usage (400), and a usage that exceeds `pricing.tier.limits`
(400) — note the source compares the usage against the usage-derived tier
`pricing.tier`, not against the requested tier. -/
def paypalCreateSubscriptionValidate (code : String) (planConfigured : Bool)
    (usage : Usage) : CreateSubOutcome :=
  if !(VALID_PLAN_CODES.contains code) then .invalidPlanCode
  else if !planConfigured then .missingPlanConfig
  else
    let pricing := computeMonthlyPriceDop usage
    if pricing.isOverLimit then .overLimit
    else
      match pricing.tier with
      | some t =>
        if decide (usage.shopCount > t.limits.shops) ||
           decide (usage.professionalCount > t.limits.professionals) then
          .usageExceedsSelectedTier
        else .accepted code
      | none => .accepted code

/-- `paypalCreateSubscription`: when validation passes (and the provider
returned a subscription id), persist the provider linkage and the requested
code as `pending_plan_code`; otherwise persist nothing. -/
def paypalCreateSubscription (now : Int) (ownerId : Int) (code : String)
    (planConfigured : Bool) (usage : Usage) (paypalSubId : String)
    (ppStatus : String) (db : DB) : DB × CreateSubOutcome :=
  match paypalCreateSubscriptionValidate code planConfigured usage with
  | .accepted c =>
    let fetched := getOrCreateOwnerSubscription now ownerId db
    let db2 := updateOwnerSub fetched.2 ownerId (fun s =>
      { s with billing_provider := some "paypal"
               paypal_subscription_id := some paypalSubId
               paypal_subscription_status := some ppStatus
               pending_plan_code := some c
               pending_plan_effective_at := none })
    (db2, .accepted c)
  | v => (db, v)

/-- Projection of the subscription table onto owner ids and period
boundaries, used to state that an operation changes no period boundary. -/
def periodView (db : DB) : List (Int × Option Int × Option Int × Option Int) :=
  db.subs.map (fun e => (e.1, e.2.current_period_start, e.2.current_period_end, e.2.grace_period_end))

/-- Concrete row with a null `current_period_end` but a live grace end. -/
def subNullPeriod : Subscription := { sub0 with grace_period_end := some 20 }

/-- Concrete row with both boundaries present. -/
def subBothBounds : Subscription :=
  { sub0 with current_period_end := some 10, grace_period_end := some 15 }

/-- Concrete row with a future period end, for the renewal instances. -/
def subRenewW : Subscription := { sub0 with current_period_end := some 100 }

/-- Concrete row linked to provider subscription `SUB5`, with a pending plan. -/
def subConfirmW : Subscription :=
  { sub0 with paypal_subscription_id := some "SUB5", plan_code := some "basic_1",
              pending_plan_code := some "pro", current_period_start := some 0,
              current_period_end := some 50, grace_period_end := some 60 }

/-- Database with owner 7 holding `subConfirmW`. -/
def dbConfirmW : DB := { subs := [(7, subConfirmW)], payments := [], reports := [], notifications := [] }

/-- A completed provider capture with capture id `CAP1`. -/
def capFixture : CaptureData :=
  { status := "COMPLETED", captureId := some "CAP1", amount := some 1000,
    currency := some "USD", create_time := none }

/-- Database with owner 1 and an empty ledger. -/
def dbCapture : DB := { subs := [(1, sub0)], payments := [], reports := [], notifications := [] }

/-- A ledger row already recorded for transaction `TX9` on the recurring rail. -/
def payW : Payment :=
  { owner_id := 2, provider := "paypal_subscription", status := "confirmed",
    amount := some 1000, currency := some "USD",
    provider_payment_id := some "TX9", paid_at := some 0 }

/-- Row of owner 2 linked to provider subscription `SUB9`. -/
def subWebhookW : Subscription :=
  { sub0 with paypal_subscription_id := some "SUB9",
              current_period_start := some 0, current_period_end := some 500,
              grace_period_end := some 600 }

/-- Database where transaction `TX9` is already on the ledger. -/
def dbWebhookW : DB :=
  { subs := [(2, subWebhookW)], payments := [payW], reports := [], notifications := [] }

/-- A payment-success webhook event for subscription `SUB9`, transaction `TX9`. -/
def evWebhookW : WebhookEvent :=
  { event_type := "PAYMENT.SALE.COMPLETED"
    resource := { billing_agreement_id := some "SUB9", rid := some "TX9",
                  subscription_id := none, sale_id := none, transaction_id := none,
                  status := none, amount := some 1000, currency := some "USD", time := none } }

/-- Row of owner 3 with a pending plan change and a current plan. -/
def subPending : Subscription :=
  { sub0 with paypal_subscription_id := some "SUB7", pending_plan_code := some "pro",
              plan_code := some "basic_1", current_period_end := some 1000,
              grace_period_end := some 2000 }

/-- Database with owner 3 holding `subPending` and an empty ledger. -/
def dbPending : DB := { subs := [(3, subPending)], payments := [], reports := [], notifications := [] }

/-- A payment-success webhook event for subscription `SUB7`, transaction `TX7`. -/
def evPending : WebhookEvent :=
  { event_type := "PAYMENT.SALE.COMPLETED"
    resource := { billing_agreement_id := some "SUB7", rid := some "TX7",
                  subscription_id := none, sale_id := none, transaction_id := none,
                  status := none, amount := some 2000, currency := some "USD", time := none } }

/-- Row with both a pending and a current plan code. -/
def subPlanW : Subscription :=
  { sub0 with pending_plan_code := some "premium", plan_code := some "basic_2" }

/-- A pending manual payment report of owner 4. -/
def reportW : Report :=
  { id := 11, owner_id := 4, amount := some 1500, currency := some "DOP",
    reference_text := some "ref", proof_url := none, status := "pending",
    approved_by := none, rejected_by := none, decided_at := none }

/-- Database with the pending report of owner 4. -/
def dbReportW : DB := { subs := [(4, sub0)], payments := [], reports := [reportW], notifications := [] }

/-- Row of owner 5 whose grace window ended at 10. -/
def subBlockedW : Subscription :=
  { sub0 with current_period_end := some 0, grace_period_end := some 10 }

/-- Database with owner 5 blocked (for reads past instant 10). -/
def dbBlockedW : DB := { subs := [(5, subBlockedW)], payments := [], reports := [], notifications := [] }

/-- A live shop owned by owner 5. -/
def shopW : Shop := { id := 30, owner_id := some 5, deleted := false }

/-- A payment-success webhook event whose resource carries no id at all. -/
def evNoSub : WebhookEvent :=
  { event_type := "PAYMENT.SALE.COMPLETED"
    resource := { billing_agreement_id := none, rid := none, subscription_id := none,
                  sale_id := none, transaction_id := none, status := none,
                  amount := none, currency := none, time := none } }

/-- Database with owner 6 only. -/
def dbAny : DB := { subs := [(6, sub0)], payments := [], reports := [], notifications := [] }

/-- Database with owner 8 only, used for the create-subscription run. -/
def dbCreate : DB := { subs := [(8, sub0)], payments := [], reports := [], notifications := [] }

theorem find_map_update (l : List (Int × Subscription)) (oid : Int)
    (f : Subscription → Subscription) :
    ((l.map (fun e => if e.1 == oid then (e.1, f e.2) else e)).find?
        (fun e => e.1 == oid)).map (fun e => e.2)
      = ((l.find? (fun e => e.1 == oid)).map (fun e => e.2)).map f := by
  induction l with
  | nil => rfl
  | cons e rest ih =>
    by_cases h : e.1 = oid
    · simp [List.find?, h]
    · have h' : (e.1 == oid) = false := by simpa using h
      simpa [List.find?, h'] using ih

theorem findSub_updateOwnerSub_self (db : DB) (oid : Int) (f : Subscription → Subscription) :
    findSub (updateOwnerSub db oid f) oid = (findSub db oid).map f := by
  simpa [findSub, updateOwnerSub] using find_map_update db.subs oid f

theorem updateOwnerSub_payments (db : DB) (oid : Int) (f : Subscription → Subscription) :
    (updateOwnerSub db oid f).payments = db.payments := rfl

theorem updateOwnerSub_reports (db : DB) (oid : Int) (f : Subscription → Subscription) :
    (updateOwnerSub db oid f).reports = db.reports := rfl

theorem getOrCreate_found (now oid : Int) (db : DB) (s : Subscription)
    (h : findSub db oid = some s) :
    getOrCreateOwnerSubscription now oid db = (s, db) := by
  simp [getOrCreateOwnerSubscription, h]

theorem getOrCreate_payments (now oid : Int) (db : DB) :
    ((getOrCreateOwnerSubscription now oid db).2).payments = db.payments := by
  unfold getOrCreateOwnerSubscription
  cases h : findSub db oid <;> simp

theorem getOrCreate_reports (now oid : Int) (db : DB) :
    ((getOrCreateOwnerSubscription now oid db).2).reports = db.reports := by
  unfold getOrCreateOwnerSubscription
  cases h : findSub db oid <;> simp

theorem renewOwner_payments (now : Int) (usage : Usage) (oid : Int) (db : DB) :
    ((renewSubscription30DaysOwner now usage oid db).2).payments = db.payments := by
  unfold renewSubscription30DaysOwner
  simp [updateOwnerSub_payments, getOrCreate_payments]

theorem renewOwner_reports (now : Int) (usage : Usage) (oid : Int) (db : DB) :
    ((renewSubscription30DaysOwner now usage oid db).2).reports = db.reports := by
  unfold renewSubscription30DaysOwner
  simp [updateOwnerSub_reports, getOrCreate_reports]

theorem periodView_updateOwnerSub (db : DB) (oid : Int) (f : Subscription → Subscription)
    (h : ∀ s, (f s).current_period_start = s.current_period_start
        ∧ (f s).current_period_end = s.current_period_end
        ∧ (f s).grace_period_end = s.grace_period_end) :
    periodView (updateOwnerSub db oid f) = periodView db := by
  simp only [periodView, updateOwnerSub, List.map_map]
  apply List.map_congr_left
  intro e _
  by_cases he : e.1 == oid
  · simp [Function.comp, he, (h e.2).1, (h e.2).2.1, (h e.2).2.2]
  · simp [Function.comp, he]

theorem find_report_update (l : List Report) (rid : Int) (f : Report → Report)
    (hid : ∀ r, (f r).id = r.id) :
    (l.map (fun r => if r.id == rid then f r else r)).find? (fun r => r.id == rid)
      = (l.find? (fun r => r.id == rid)).map f := by
  induction l with
  | nil => rfl
  | cons r rest ih =>
    by_cases h : r.id = rid
    · simp [List.find?, h, hid]
    · have h' : (r.id == rid) = false := by simpa using h
      simpa [List.find?, h'] using ih

theorem findReport_updateReport_self (db : DB) (rid : Int) (f : Report → Report)
    (hid : ∀ r, (f r).id = r.id) :
    findReport (updateReport db rid f) rid = (findReport db rid).map f := by
  simpa [findReport, updateReport] using find_report_update db.reports rid f hid

/-- C2 counterexample: on a row whose `current_period_end` is null but whose
`grace_period_end` is a live instant (here 20, read at now = 10), the derived
state is Grace, not Blocked — refuting "when period_end is absent (null) the
state is Blocked regardless of now". -/
theorem computeSubscriptionState_nullPeriod_counterexample :
    (computeSubscriptionState 10 subNullPeriod).isBlocked = false
    ∧ (computeSubscriptionState 10 subNullPeriod).isInGrace = true := by
  decide

/-- C2 (amended): for every row with both boundaries present, `period_end = T`
and `grace_end = G` with `T ≤ G` (the maintained invariant `G = T + 5d`
implies this), the state is Active exactly when `now ≤ T`, Grace exactly when
`T < now ≤ G`, and Blocked exactly when `now > G`; both boundaries belong to
the lower state.  When `period_end` is absent the row is never Active, and it
is Blocked exactly when `grace_end` is also absent or `now > grace_end`
(when `grace_end` is present and `now ≤ grace_end` the state is Grace). -/
theorem computeSubscriptionState_spec :
    (∀ (now T G : Int) (sub : Subscription),
      sub.current_period_end = some T →
      sub.grace_period_end = some G →
      T ≤ G →
      ((computeSubscriptionState now sub).isActive = true ↔ now ≤ T)
      ∧ ((computeSubscriptionState now sub).isInGrace = true ↔ (T < now ∧ now ≤ G))
      ∧ ((computeSubscriptionState now sub).isBlocked = true ↔ G < now))
    ∧ (∀ (now : Int) (sub : Subscription),
      sub.current_period_end = none →
      (computeSubscriptionState now sub).isActive = false
      ∧ (sub.grace_period_end = none → (computeSubscriptionState now sub).isBlocked = true)
      ∧ (∀ g, sub.grace_period_end = some g →
          ((computeSubscriptionState now sub).isInGrace = true ↔ now ≤ g)
          ∧ ((computeSubscriptionState now sub).isBlocked = true ↔ g < now))) := by
  constructor
  · intro now T G sub hT hG hTG
    refine ⟨?_, ?_, ?_⟩ <;> simp [computeSubscriptionState, hT, hG] <;> omega
  · intro now sub hT
    refine ⟨?_, ?_, ?_⟩
    · simp [computeSubscriptionState, hT]
    · intro hG
      simp [computeSubscriptionState, hT, hG]
    · intro g hG
      constructor <;> simp [computeSubscriptionState, hT, hG]

/-- Witness for `computeSubscriptionState_spec` at `T = 10`, `G = 15`:
at `now = 5` the state is Active, at `now = 12` it is Grace. -/
theorem computeSubscriptionState_spec_witness :
    (computeSubscriptionState 5 subBothBounds).isActive = true
    ∧ (computeSubscriptionState 12 subBothBounds).isInGrace = true := by
  have h1 := computeSubscriptionState_spec.1 5 10 15 subBothBounds rfl rfl (by decide)
  have h2 := computeSubscriptionState_spec.1 12 10 15 subBothBounds rfl rfl (by decide)
  exact ⟨h1.1.mpr (by decide), h2.2.1.mpr (by decide)⟩

/-- C3: every renewal sets `status = 'active'`,
`current_period_start = max(now, previous period end)`,
`current_period_end = start + 30 days` and
`grace_period_end = current_period_end + 5 days`; consequently the new
period end is at least the previous one (renewing early never loses paid
time), and the start is never before `now`. -/
theorem renewSubscription30Days_period_spec (now : Int) (usage : Usage) (sub : Subscription) :
    (renewSubscription30Days now usage sub).status = "active"
    ∧ (renewSubscription30Days now usage sub).current_period_start = some (renewStart now sub)
    ∧ (renewSubscription30Days now usage sub).current_period_end
        = some (renewStart now sub + dur30)
    ∧ (renewSubscription30Days now usage sub).grace_period_end
        = some (renewStart now sub + dur30 + dur5)
    ∧ (∀ ce, sub.current_period_end = some ce → ce ≤ renewStart now sub + dur30)
    ∧ now ≤ renewStart now sub := by
  have hd30 : dur30 = 2592000000 := by norm_num [dur30, msPerDay]
  unfold renewSubscription30Days renewStart
  cases h : sub.current_period_end with
  | none => simp [h]
  | some ce =>
    by_cases hc : ce > now
    · have hm : max now ce = ce := max_eq_right (le_of_lt hc)
      simp [h, hc, hm]
      omega
    · have hm : max now ce = now := max_eq_left (by omega)
      simp [h, hc, hm]
      omega

/-- Witness for `renewSubscription30Days_period_spec`: renewing at `now = 0`
a row whose period ends at 100 keeps the status active and does not lose the
100 already-paid instants. -/
theorem renewSubscription30Days_period_spec_witness :
    (renewSubscription30Days 0 ⟨1, 1⟩ subRenewW).status = "active"
    ∧ (100 : Int) ≤ renewStart 0 subRenewW + dur30 := by
  have h := renewSubscription30Days_period_spec 0 ⟨1, 1⟩ subRenewW
  exact ⟨h.1, h.2.2.2.2.1 100 rfl⟩

theorem find?_tiers_cases (S P : Int) :
    PLAN_TIERS.find? (tierFits S P) =
      (if S ≤ 1 ∧ P ≤ 2 then
        some { code := "basic_1", name := "Básico 1", priceDop := 1000, limits := { shops := 1, professionals := 2 } }
      else if S ≤ 1 ∧ P ≤ 3 then
        some { code := "basic_2", name := "Básico 2", priceDop := 1500, limits := { shops := 1, professionals := 3 } }
      else if S ≤ 2 ∧ P ≤ 6 then
        some { code := "pro", name := "Pro", priceDop := 2000, limits := { shops := 2, professionals := 6 } }
      else if S ≤ 3 ∧ P ≤ 12 then
        some { code := "premium", name := "Premium", priceDop := 2500, limits := { shops := 3, professionals := 12 } }
      else none) := by
  simp only [PLAN_TIERS]
  by_cases h1 : S ≤ 1 ∧ P ≤ 2
  · rw [List.find?_cons_of_pos _ (by simp [tierFits]; omega), if_pos h1]
  · rw [List.find?_cons_of_neg _ (by simp [tierFits]; omega), if_neg h1]
    by_cases h2 : S ≤ 1 ∧ P ≤ 3
    · rw [List.find?_cons_of_pos _ (by simp [tierFits]; omega), if_pos h2]
    · rw [List.find?_cons_of_neg _ (by simp [tierFits]; omega), if_neg h2]
      by_cases h3 : S ≤ 2 ∧ P ≤ 6
      · rw [List.find?_cons_of_pos _ (by simp [tierFits]; omega), if_pos h3]
      · rw [List.find?_cons_of_neg _ (by simp [tierFits]; omega), if_neg h3]
        by_cases h4 : S ≤ 3 ∧ P ≤ 12
        · rw [List.find?_cons_of_pos _ (by simp [tierFits]; omega), if_pos h4]
        · rw [List.find?_cons_of_neg _ (by simp [tierFits]; omega), if_neg h4]
          rfl

/-- C4: the pricing function is a pure function of the usage snapshot over
the static 4-row table.  When some tier accommodates both (clamped) counts,
it returns a fitting tier that is smallest — in both limit dimensions and in
price — among all fitting tiers, with `total` that tier's fixed price and
`isOverLimit = false`.  When no tier accommodates the usage, it reports
`isOverLimit = true`, `total = null` and
`overage = (max 0 (shops - 3), max 0 (professionals - 12))`, the usage minus
the maximum tier's limits clamped at 0. -/
theorem computeMonthlyPriceDop_spec (u : Usage) :
    ((∃ t ∈ PLAN_TIERS, tierFits (max 0 u.shopCount) (max 0 u.professionalCount) t = true) →
      ∃ t, (computeMonthlyPriceDop u).tier = some t
        ∧ t ∈ PLAN_TIERS
        ∧ tierFits (max 0 u.shopCount) (max 0 u.professionalCount) t = true
        ∧ (∀ t' ∈ PLAN_TIERS,
            tierFits (max 0 u.shopCount) (max 0 u.professionalCount) t' = true →
            t.limits.shops ≤ t'.limits.shops
            ∧ t.limits.professionals ≤ t'.limits.professionals
            ∧ t.priceDop ≤ t'.priceDop)
        ∧ (computeMonthlyPriceDop u).total = some t.priceDop
        ∧ (computeMonthlyPriceDop u).isOverLimit = false)
    ∧ ((∀ t ∈ PLAN_TIERS, tierFits (max 0 u.shopCount) (max 0 u.professionalCount) t = false) →
        (computeMonthlyPriceDop u).isOverLimit = true
        ∧ (computeMonthlyPriceDop u).total = none
        ∧ (computeMonthlyPriceDop u).overageShops = max 0 (u.shopCount - 3)
        ∧ (computeMonthlyPriceDop u).overageProfessionals = max 0 (u.professionalCount - 12)) := by
  have hfind := find?_tiers_cases (max 0 u.shopCount) (max 0 u.professionalCount)
  by_cases c1 : max 0 u.shopCount ≤ 1 ∧ max 0 u.professionalCount ≤ 2
  · rw [if_pos c1] at hfind
    have hcomp : (computeMonthlyPriceDop u).tier
        = some { code := "basic_1", name := "Básico 1", priceDop := 1000,
                 limits := { shops := 1, professionals := 2 } } := by
      simp [computeMonthlyPriceDop, selectTierForUsage, hfind]
    constructor
    · intro _
      refine ⟨_, hcomp, by simp [PLAN_TIERS], by simp [tierFits]; omega, ?_, ?_, ?_⟩
      · intro t' ht' _
        simp [PLAN_TIERS] at ht'
        rcases ht' with rfl | rfl | rfl | rfl <;> norm_num
      · simp [computeMonthlyPriceDop, selectTierForUsage, hfind]
      · simp [computeMonthlyPriceDop, selectTierForUsage, hfind]
    · intro hall
      have hf := hall _ (by simp [PLAN_TIERS] :
        ({ code := "basic_1", name := "Básico 1", priceDop := 1000,
           limits := { shops := 1, professionals := 2 } } : PlanTier) ∈ PLAN_TIERS)
      simp [tierFits] at hf
      omega
  · rw [if_neg c1] at hfind
    by_cases c2 : max 0 u.shopCount ≤ 1 ∧ max 0 u.professionalCount ≤ 3
    · rw [if_pos c2] at hfind
      have hcomp : (computeMonthlyPriceDop u).tier
          = some { code := "basic_2", name := "Básico 2", priceDop := 1500,
                   limits := { shops := 1, professionals := 3 } } := by
        simp [computeMonthlyPriceDop, selectTierForUsage, hfind]
      constructor
      · intro _
        refine ⟨_, hcomp, by simp [PLAN_TIERS], by simp [tierFits]; omega, ?_, ?_, ?_⟩
        · intro t' ht' hf
          simp [PLAN_TIERS] at ht'
          rcases ht' with rfl | rfl | rfl | rfl <;> simp [tierFits] at hf ⊢ <;> omega
        · simp [computeMonthlyPriceDop, selectTierForUsage, hfind]
        · simp [computeMonthlyPriceDop, selectTierForUsage, hfind]
      · intro hall
        have hf := hall _ (by simp [PLAN_TIERS] :
          ({ code := "basic_2", name := "Básico 2", priceDop := 1500,
             limits := { shops := 1, professionals := 3 } } : PlanTier) ∈ PLAN_TIERS)
        simp [tierFits] at hf
        omega
    · rw [if_neg c2] at hfind
      by_cases c3 : max 0 u.shopCount ≤ 2 ∧ max 0 u.professionalCount ≤ 6
      · rw [if_pos c3] at hfind
        have hcomp : (computeMonthlyPriceDop u).tier
            = some { code := "pro", name := "Pro", priceDop := 2000,
                     limits := { shops := 2, professionals := 6 } } := by
          simp [computeMonthlyPriceDop, selectTierForUsage, hfind]
        constructor
        · intro _
          refine ⟨_, hcomp, by simp [PLAN_TIERS], by simp [tierFits]; omega, ?_, ?_, ?_⟩
          · intro t' ht' hf
            simp [PLAN_TIERS] at ht'
            rcases ht' with rfl | rfl | rfl | rfl <;> simp [tierFits] at hf ⊢ <;> omega
          · simp [computeMonthlyPriceDop, selectTierForUsage, hfind]
          · simp [computeMonthlyPriceDop, selectTierForUsage, hfind]
        · intro hall
          have hf := hall _ (by simp [PLAN_TIERS] :
            ({ code := "pro", name := "Pro", priceDop := 2000,
               limits := { shops := 2, professionals := 6 } } : PlanTier) ∈ PLAN_TIERS)
          simp [tierFits] at hf
          omega
      · rw [if_neg c3] at hfind
        by_cases c4 : max 0 u.shopCount ≤ 3 ∧ max 0 u.professionalCount ≤ 12
        · rw [if_pos c4] at hfind
          have hcomp : (computeMonthlyPriceDop u).tier
              = some { code := "premium", name := "Premium", priceDop := 2500,
                       limits := { shops := 3, professionals := 12 } } := by
            simp [computeMonthlyPriceDop, selectTierForUsage, hfind]
          constructor
          · intro _
            refine ⟨_, hcomp, by simp [PLAN_TIERS], by simp [tierFits]; omega, ?_, ?_, ?_⟩
            · intro t' ht' hf
              simp [PLAN_TIERS] at ht'
              rcases ht' with rfl | rfl | rfl | rfl <;> simp [tierFits] at hf ⊢ <;> omega
            · simp [computeMonthlyPriceDop, selectTierForUsage, hfind]
            · simp [computeMonthlyPriceDop, selectTierForUsage, hfind]
          · intro hall
            have hf := hall _ (by simp [PLAN_TIERS] :
              ({ code := "premium", name := "Premium", priceDop := 2500,
                 limits := { shops := 3, professionals := 12 } } : PlanTier) ∈ PLAN_TIERS)
            simp [tierFits] at hf
            omega
        · rw [if_neg c4] at hfind
          have hov : (decide (max 0 (max 0 u.shopCount - 3) > 0)
              || decide (max 0 (max 0 u.professionalCount - 12) > 0)) = true := by
            simp only [Bool.or_eq_true, decide_eq_true_eq]
            omega
          have hsel : selectTierForUsage u =
              { tier := none, isOverLimit := true,
                overageShops := max 0 (max 0 u.shopCount - 3),
                overageProfessionals := max 0 (max 0 u.professionalCount - 12),
                normShops := max 0 u.shopCount,
                normProfessionals := max 0 u.professionalCount } := by
            simp [selectTierForUsage, hfind, PLAN_TIERS, hov]
            refine ⟨⟨?_, ?_, ?_, ?_⟩, ?_⟩
            · simp [tierFits]; omega
            · simp [tierFits]; omega
            · simp [tierFits]; omega
            · simp [tierFits]; omega
            · omega
          have hcomp : computeMonthlyPriceDop u =
              { tier := none, total := none, isOverLimit := true,
                overageShops := max 0 (max 0 u.shopCount - 3),
                overageProfessionals := max 0 (max 0 u.professionalCount - 12) } := by
            simp [computeMonthlyPriceDop, hsel]
          constructor
          · intro hex
            exfalso
            obtain ⟨t, ht, hf⟩ := hex
            simp [PLAN_TIERS] at ht
            rcases ht with rfl | rfl | rfl | rfl <;> simp [tierFits] at hf <;> omega
          · intro _
            refine ⟨by rw [hcomp], by rw [hcomp], ?_, ?_⟩ <;> rw [hcomp] <;> simp <;> omega

/-- Witness for `computeMonthlyPriceDop_spec`: usage (2 shops, 5
professionals) is not over limit, and usage (4 shops, 20 professionals) has
a null total. -/
theorem computeMonthlyPriceDop_spec_witness :
    (computeMonthlyPriceDop ⟨2, 5⟩).isOverLimit = false
    ∧ (computeMonthlyPriceDop ⟨4, 20⟩).total = none := by
  have h1 := (computeMonthlyPriceDop_spec ⟨2, 5⟩).1
    ⟨{ code := "pro", name := "Pro", priceDop := 2000,
       limits := { shops := 2, professionals := 6 } }, by decide, by decide⟩
  have h2 := (computeMonthlyPriceDop_spec ⟨4, 20⟩).2 (by decide)
  obtain ⟨t, _, _, _, _, _, hover⟩ := h1
  exact ⟨hover, h2.2.1⟩

/-- C5: on the Confirm operation, whenever the re-fetched provider status is
anything other than `ACTIVE`, only the provider status (and the provider
linkage flag) is persisted: the row keeps its `plan_code`,
`pending_plan_code`, `pending_plan_effective_at`, `current_period_start`,
`current_period_end`, `grace_period_end` and `status` exactly as they were,
and no renewal and no ledger write occurs. -/
theorem paypalConfirmSubscription_nonActive_frame
    (now ownerId : Int) (subscriptionId ppStatus : String)
    (planSync : Option String) (nextBilling : Option Int) (db : DB) (sub : Subscription)
    (hfind : findSub db ownerId = some sub)
    (hmatch : sub.paypal_subscription_id.getD "" = subscriptionId)
    (hact : jsToUpper ppStatus ≠ "ACTIVE")
    (hne : jsToUpper ppStatus ≠ "") :
    (paypalConfirmSubscription now ownerId subscriptionId ppStatus planSync nextBilling db).2
        = ConfirmOutcome.statusSynced
    ∧ findSub (paypalConfirmSubscription now ownerId subscriptionId ppStatus planSync nextBilling db).1 ownerId
        = some { sub with billing_provider := some "paypal",
                          paypal_subscription_status := some (jsToUpper ppStatus) }
    ∧ (paypalConfirmSubscription now ownerId subscriptionId ppStatus planSync nextBilling db).1.payments
        = db.payments := by
  have hg := getOrCreate_found now ownerId db sub hfind
  have hb1 : (jsToUpper ppStatus == "") = false := by simpa using hne
  have hb2 : (sub.paypal_subscription_id.getD "" != subscriptionId) = false := by
    simp [hmatch]
  have hb3 : (jsToUpper ppStatus != "ACTIVE") = true := by simpa using hact
  simp [paypalConfirmSubscription, hg, hb1, hb2, hb3,
    findSub_updateOwnerSub_self, updateOwnerSub_payments, hfind]

/-- Witness for `paypalConfirmSubscription_nonActive_frame` on a concrete
`APPROVAL_PENDING` confirm of owner 7. -/
theorem paypalConfirmSubscription_nonActive_frame_witness :
    (paypalConfirmSubscription 0 7 "SUB5" "APPROVAL_PENDING" none none dbConfirmW).2
      = ConfirmOutcome.statusSynced := by
  exact (paypalConfirmSubscription_nonActive_frame 0 7 "SUB5" "APPROVAL_PENDING"
    none none dbConfirmW subConfirmW (by decide) (by decide) (by decide) (by decide)).1

theorem computeMonthly_tier_code_ne_empty (u : Usage) (t : PlanTier)
    (h : (computeMonthlyPriceDop u).tier = some t) : t.code ≠ "" := by
  cases hst : (selectTierForUsage u).tier with
  | none =>
    by_cases hov : (selectTierForUsage u).isOverLimit
    · simp [computeMonthlyPriceDop, hst, hov] at h
    · simp [computeMonthlyPriceDop, hst, hov, PLAN_TIERS] at h
      subst h
      decide
  | some t0 =>
    have hc : (computeMonthlyPriceDop u).tier = some t0 := by
      simp [computeMonthlyPriceDop, hst]
    rw [hc, Option.some.injEq] at h
    subst h
    have hrfl : (selectTierForUsage u).tier
        = PLAN_TIERS.find? (tierFits (max 0 u.shopCount) (max 0 u.professionalCount)) := rfl
    rw [hrfl] at hst
    have hmem := List.mem_of_find?_eq_some hst
    simp [PLAN_TIERS] at hmem
    rcases hmem with rfl | rfl | rfl | rfl <;> decide

/-- C7 counterexample: a payment-success webhook delivery for subscription
`SUB7` renews owner 3 (the response carries `renewed = true`), yet the row's
`pending_plan_code` is still `'pro'` afterwards — refuting "the renewal
clears pending_plan_code (it is null afterwards)". -/
theorem paypalWebhook_pending_survives_counterexample :
    (paypalWebhook 5000 ⟨1, 1⟩ none evPending dbPending).2.renewed = true
    ∧ (findSub (paypalWebhook 5000 ⟨1, 1⟩ none evPending dbPending).1 3).map
        (fun s => s.pending_plan_code) = some (some "pro") := by
  decide

/-- C7 (amended): the plan code the renewal persists is resolved with
`pending_plan_code` taking priority, then the row's existing `plan_code`,
and only then the tier implied by current usage; and the renewal does not
clear `pending_plan_code` — the field is left exactly as it was (it is
cleared only by the confirm path). -/
theorem renewSubscription30Days_planCode_spec (now : Int) (usage : Usage) (sub : Subscription) :
    (renewSubscription30Days now usage sub).pending_plan_code = sub.pending_plan_code
    ∧ (jsStrTruthy sub.pending_plan_code = true →
        (renewSubscription30Days now usage sub).plan_code = sub.pending_plan_code)
    ∧ (jsStrTruthy sub.pending_plan_code = false → jsStrTruthy sub.plan_code = true →
        (renewSubscription30Days now usage sub).plan_code = sub.plan_code)
    ∧ (jsStrTruthy sub.pending_plan_code = false → jsStrTruthy sub.plan_code = false →
        (renewSubscription30Days now usage sub).plan_code
          = (match (computeMonthlyPriceDop usage).tier with
             | some t => some t.code
             | none => sub.plan_code)) := by
  refine ⟨?_, ?_, ?_, ?_⟩
  · simp [renewSubscription30Days]
  · intro hp
    cases hps : sub.pending_plan_code with
    | none => simp [jsStrTruthy, hps] at hp
    | some c =>
      rw [hps] at hp
      simp [jsStrTruthy] at hp
      simp [renewSubscription30Days, hps, jsStrTruthy, hp]
  · intro hp hc
    simp [renewSubscription30Days, hp]
    cases hcs : sub.plan_code with
    | none => simp [jsStrTruthy, hcs] at hc
    | some c =>
      rw [hcs] at hc
      simp [jsStrTruthy] at hc
      simp [jsStrTruthy, hc]
  · intro hp hc
    cases ht : (computeMonthlyPriceDop usage).tier with
    | none => simp [renewSubscription30Days, hp, hc, ht]
    | some t =>
      have hne := computeMonthly_tier_code_ne_empty usage t ht
      have htr : jsStrTruthy (some t.code) = true := by simp [jsStrTruthy, hne]
      simp [renewSubscription30Days, hp, hc, ht, htr]

/-- Witness for `renewSubscription30Days_planCode_spec`: a row with pending
plan `premium` and current plan `basic_2` renews to plan `premium`, with the
pending field untouched. -/
theorem renewSubscription30Days_planCode_spec_witness :
    (renewSubscription30Days 0 ⟨1, 1⟩ subPlanW).plan_code = some "premium"
    ∧ (renewSubscription30Days 0 ⟨1, 1⟩ subPlanW).pending_plan_code = some "premium" := by
  have h := renewSubscription30Days_planCode_spec 0 ⟨1, 1⟩ subPlanW
  exact ⟨(h.2.1 (by decide)).trans rfl, h.1.trans rfl⟩

theorem webhookTransactionId_truthy (r : WebhookResource) (t : String)
    (h : webhookTransactionId r = some t) : jsStrTruthy (some t) = true := by
  unfold webhookTransactionId at h
  split_ifs at h with h1 h2 h3
  · rw [h] at h1; exact h1
  · rw [h] at h2; exact h2
  · rw [h] at h3; exact h3

/-- C1 counterexample: replaying a completed order capture with the same
capture id `CAP1` through `paypalCaptureOrder` succeeds twice, leaves two
Payment rows for the pair `('paypal', 'CAP1')`, and moves the period
boundaries again — the one-off order-capture path performs no
`(provider, provider_payment_id)` idempotency check. -/
theorem paypalCaptureOrder_replay_counterexample :
    ((paypalCaptureOrder 1000 ⟨1, 1⟩ 1 "ORDER1" "USD" capFixture
        (paypalCaptureOrder 0 ⟨1, 1⟩ 1 "ORDER1" "USD" capFixture dbCapture).1).1.payments.filter
      (fun p => p.provider == "paypal" && p.provider_payment_id == some "CAP1")).length = 2
    ∧ (paypalCaptureOrder 0 ⟨1, 1⟩ 1 "ORDER1" "USD" capFixture dbCapture).2
        = CaptureOutcome.success
    ∧ (paypalCaptureOrder 1000 ⟨1, 1⟩ 1 "ORDER1" "USD" capFixture
        (paypalCaptureOrder 0 ⟨1, 1⟩ 1 "ORDER1" "USD" capFixture dbCapture).1).2
        = CaptureOutcome.success
    ∧ periodView (paypalCaptureOrder 1000 ⟨1, 1⟩ 1 "ORDER1" "USD" capFixture
        (paypalCaptureOrder 0 ⟨1, 1⟩ 1 "ORDER1" "USD" capFixture dbCapture).1).1
      ≠ periodView (paypalCaptureOrder 0 ⟨1, 1⟩ 1 "ORDER1" "USD" capFixture dbCapture).1 := by
  decide

/-- C1 (amended): on the recurring-webhook path, processing an event whose
`('paypal_subscription', transaction id)` pair already has a Payment ledger
row performs no renewal and inserts no Payment row: the ledger and every
subscription's period boundaries are left exactly as the first delivery set
them, and the response reports no renewal.  The one-off order-capture path
has no such check (see the counterexample). -/
theorem paypalWebhook_duplicate_transaction_noop
    (now : Int) (usage : Usage) (planSync : Option String) (ev : WebhookEvent) (db : DB)
    (tid : String)
    (htid : webhookTransactionId ev.resource = some tid)
    (hdup : ∃ p ∈ db.payments, p.provider = "paypal_subscription"
        ∧ p.provider_payment_id = some tid) :
    (paypalWebhook now usage planSync ev db).1.payments = db.payments
    ∧ periodView (paypalWebhook now usage planSync ev db).1 = periodView db
    ∧ (paypalWebhook now usage planSync ev db).2.renewed = false := by
  have htidT := webhookTransactionId_truthy ev.resource tid htid
  have hany : db.payments.any (fun p =>
      p.provider == "paypal_subscription" && p.provider_payment_id == some tid) = true := by
    obtain ⟨p, hpm, hpp, hpi⟩ := hdup
    refine List.any_eq_true.mpr ⟨p, hpm, ?_⟩
    simp [hpp, hpi]
  have hper1 : ∀ (d : DB) (oid : Int) (st : String),
      periodView (updateOwnerSub d oid (fun s =>
        { s with paypal_subscription_status := some st,
                 billing_provider := some "paypal" })) = periodView d :=
    fun d oid st => periodView_updateOwnerSub d oid _ (fun _ => ⟨rfl, rfl, rfl⟩)
  have hper2 : ∀ (d : DB) (oid : Int) (pc : String),
      periodView (updateOwnerSub d oid (fun s => { s with plan_code := some pc }))
        = periodView d :=
    fun d oid pc => periodView_updateOwnerSub d oid _ (fun _ => ⟨rfl, rfl, rfl⟩)
  unfold paypalWebhook
  simp only [htid, Option.getD_some]
  by_cases hs : jsStrTruthy (webhookSubscriptionId ev.resource)
  · cases hfd : List.find? (fun e =>
        e.2.paypal_subscription_id == some ((webhookSubscriptionId ev.resource).getD ""))
        db.subs with
    | none => simp [hs, hfd]
    | some entry =>
      by_cases hpe : isPaymentSuccessEvent (jsToUpper ev.event_type) <;>
        by_cases hbs : jsStartsWith (jsToUpper ev.event_type) "BILLING.SUBSCRIPTION." <;>
        cases planSync <;>
        simp [hs, hfd, hpe, hbs, htidT, hany, updateOwnerSub_payments, hper1, hper2]
  · simp [hs]

/-- Witness for `paypalWebhook_duplicate_transaction_noop`: redelivering the
`TX9` payment event against a ledger that already holds `TX9` leaves the
ledger unchanged and renews nothing. -/
theorem paypalWebhook_duplicate_transaction_noop_witness :
    (paypalWebhook 100 ⟨1, 1⟩ none evWebhookW dbWebhookW).1.payments = dbWebhookW.payments
    ∧ (paypalWebhook 100 ⟨1, 1⟩ none evWebhookW dbWebhookW).2.renewed = false := by
  have h := paypalWebhook_duplicate_transaction_noop 100 ⟨1, 1⟩ none evWebhookW dbWebhookW
    "TX9" (by decide) ⟨payW, by decide, by decide, by decide⟩
  exact ⟨h.1, h.2.2⟩

theorem findReport_mk (subs : List (Int × Subscription)) (payments : List Payment)
    (reports : List Report) (notifications : List NotificationRow) (rid : Int) :
    findReport ⟨subs, payments, reports, notifications⟩ rid
      = reports.find? (fun r => r.id == rid) := rfl

/-- C8: a decision on a manual payment report succeeds only while the report
is pending: approving stamps status `approved` with the deciding admin and
the decision time, rejecting stamps `rejected` likewise; and any second
decision attempt (approve or reject) on the same report returns the
already-processed conflict and leaves the entire database — ledger, report
and subscription rows included — exactly unchanged.  On a report that is not
pending, both decisions are conflicts that change nothing. -/
theorem manualReport_decided_exactly_once
    (now1 now2 admin1 admin2 : Int) (usage1 usage2 : Usage) (db : DB) (rid : Int) (r : Report)
    (hfind : findReport db rid = some r) :
    (jsToLower r.status = "pending" →
      ((approveManualPaymentReport now1 usage1 admin1 rid db).2 = DecisionOutcome.ok
       ∧ findReport (approveManualPaymentReport now1 usage1 admin1 rid db).1 rid
           = some { r with status := "approved", approved_by := some admin1,
                           decided_at := some now1 }
       ∧ approveManualPaymentReport now2 usage2 admin2 rid
             (approveManualPaymentReport now1 usage1 admin1 rid db).1
           = ((approveManualPaymentReport now1 usage1 admin1 rid db).1,
              DecisionOutcome.alreadyProcessed)
       ∧ rejectManualPaymentReport now2 admin2 rid
             (approveManualPaymentReport now1 usage1 admin1 rid db).1
           = ((approveManualPaymentReport now1 usage1 admin1 rid db).1,
              DecisionOutcome.alreadyProcessed))
      ∧ ((rejectManualPaymentReport now1 admin1 rid db).2 = DecisionOutcome.ok
       ∧ findReport (rejectManualPaymentReport now1 admin1 rid db).1 rid
           = some { r with status := "rejected", rejected_by := some admin1,
                           decided_at := some now1 }
       ∧ approveManualPaymentReport now2 usage2 admin2 rid
             (rejectManualPaymentReport now1 admin1 rid db).1
           = ((rejectManualPaymentReport now1 admin1 rid db).1,
              DecisionOutcome.alreadyProcessed)
       ∧ rejectManualPaymentReport now2 admin2 rid
             (rejectManualPaymentReport now1 admin1 rid db).1
           = ((rejectManualPaymentReport now1 admin1 rid db).1,
              DecisionOutcome.alreadyProcessed)))
    ∧ (jsToLower r.status ≠ "pending" →
        approveManualPaymentReport now1 usage1 admin1 rid db
          = (db, DecisionOutcome.alreadyProcessed)
        ∧ rejectManualPaymentReport now1 admin1 rid db
          = (db, DecisionOutcome.alreadyProcessed)) := by
  have hfind' : db.reports.find? (fun x => x.id == rid) = some r := hfind
  constructor
  · intro hp
    have hb : (jsToLower r.status != "pending") = false := by simp [hp]
    have hb2 : ((jsToLower "approved") != "pending") = true := by decide
    have hb3 : ((jsToLower "rejected") != "pending") = true := by decide
    have hAfind : findReport (approveManualPaymentReport now1 usage1 admin1 rid db).1 rid
        = some { r with status := "approved", approved_by := some admin1,
                        decided_at := some now1 } := by
      simp [approveManualPaymentReport, hfind, hb, findReport_updateReport_self,
        findReport_mk, renewOwner_reports, hfind']
    have hRfind : findReport (rejectManualPaymentReport now1 admin1 rid db).1 rid
        = some { r with status := "rejected", rejected_by := some admin1,
                        decided_at := some now1 } := by
      simp [rejectManualPaymentReport, hfind, hb, findReport_updateReport_self,
        findReport_mk, hfind']
    refine ⟨⟨?_, hAfind, ?_, ?_⟩, ?_, hRfind, ?_, ?_⟩
    · simp [approveManualPaymentReport, hfind, hb]
    · generalize hg : (approveManualPaymentReport now1 usage1 admin1 rid db).1 = dbA at hAfind ⊢
      simp [approveManualPaymentReport, hAfind, hb2]
    · simp [rejectManualPaymentReport, hAfind, hb2]
    · simp [rejectManualPaymentReport, hfind, hb]
    · simp [approveManualPaymentReport, hRfind, hb3]
    · generalize hg : (rejectManualPaymentReport now1 admin1 rid db).1 = dbR at hRfind ⊢
      simp [rejectManualPaymentReport, hRfind, hb3]
  · intro hnp
    have hb : (jsToLower r.status != "pending") = true := bne_iff_ne.mpr hnp
    constructor
    · simp [approveManualPaymentReport, hfind, hb]
    · simp [rejectManualPaymentReport, hfind, hb]

/-- Witness for `manualReport_decided_exactly_once`: approving the pending
report 11 succeeds, and a second approval attempt is a conflict that leaves
the database unchanged. -/
theorem manualReport_decided_exactly_once_witness :
    (approveManualPaymentReport 50 ⟨1, 1⟩ 99 11 dbReportW).2 = DecisionOutcome.ok
    ∧ approveManualPaymentReport 60 ⟨1, 1⟩ 98 11
          (approveManualPaymentReport 50 ⟨1, 1⟩ 99 11 dbReportW).1
        = ((approveManualPaymentReport 50 ⟨1, 1⟩ 99 11 dbReportW).1,
           DecisionOutcome.alreadyProcessed) := by
  have h := manualReport_decided_exactly_once 50 60 99 98 ⟨1, 1⟩ ⟨1, 1⟩ dbReportW 11 reportW
    (by decide)
  have h2 := (h.1 (by decide)).1
  exact ⟨h2.1, h2.2.2.1⟩

/-- C9: both enforcement gates (by owner, and by shop after resolving the
shop to its owner) fail with a 402 payment-required error that carries the
owner id and both boundary timestamps exactly when the derived state is
Blocked, and otherwise return the owner id, the subscription row and the
live state. -/
theorem enforcementGate_spec (now oid : Int) (db : DB) (shops : List Shop)
    (shopId : Int) (shop : Shop) :
    ((computeSubscriptionState now (getOrCreateOwnerSubscription now oid db).1).isBlocked = true →
       (enforceOwnerSubscriptionForManagement now (some oid) db).2
         = GateResult.err 402 (some
             { ownerId := oid,
               periodEnd := (computeSubscriptionState now
                 (getOrCreateOwnerSubscription now oid db).1).periodEnd,
               graceEnd := (computeSubscriptionState now
                 (getOrCreateOwnerSubscription now oid db).1).graceEnd }))
    ∧ ((computeSubscriptionState now (getOrCreateOwnerSubscription now oid db).1).isBlocked = false →
       (enforceOwnerSubscriptionForManagement now (some oid) db).2
         = GateResult.ok oid (getOrCreateOwnerSubscription now oid db).1
             (computeSubscriptionState now (getOrCreateOwnerSubscription now oid db).1))
    ∧ (shops.find? (fun s => s.id == shopId && !s.deleted) = some shop →
       shop.owner_id = some oid →
       ((computeSubscriptionState now (getOrCreateOwnerSubscription now oid db).1).isBlocked = true →
          (enforceShopSubscriptionForBooking now shops shopId db).2
            = GateResult.err 402 (some
                { ownerId := oid,
                  periodEnd := (computeSubscriptionState now
                    (getOrCreateOwnerSubscription now oid db).1).periodEnd,
                  graceEnd := (computeSubscriptionState now
                    (getOrCreateOwnerSubscription now oid db).1).graceEnd }))
       ∧ ((computeSubscriptionState now (getOrCreateOwnerSubscription now oid db).1).isBlocked = false →
          (enforceShopSubscriptionForBooking now shops shopId db).2
            = GateResult.ok oid (getOrCreateOwnerSubscription now oid db).1
                (computeSubscriptionState now (getOrCreateOwnerSubscription now oid db).1))) := by
  refine ⟨?_, ?_, ?_⟩
  · intro hb
    simp [enforceOwnerSubscriptionForManagement, gateOwner, hb]
  · intro hb
    simp [enforceOwnerSubscriptionForManagement, gateOwner, hb]
  · intro hsf hoid
    constructor
    · intro hb
      simp [enforceShopSubscriptionForBooking, hsf, hoid, gateOwner, hb]
    · intro hb
      simp [enforceShopSubscriptionForBooking, hsf, hoid, gateOwner, hb]

/-- Witness for `enforcementGate_spec`: owner 5, whose grace window ended at
instant 10, is blocked at instant 100 with a 402 carrying both boundaries,
on both gates. -/
theorem enforcementGate_spec_witness :
    (enforceOwnerSubscriptionForManagement 100 (some 5) dbBlockedW).2
      = GateResult.err 402 (some { ownerId := 5, periodEnd := some 0, graceEnd := some 10 })
    ∧ (enforceShopSubscriptionForBooking 100 [shopW] 30 dbBlockedW).2
      = GateResult.err 402 (some { ownerId := 5, periodEnd := some 0, graceEnd := some 10 }) := by
  have h := enforcementGate_spec 100 5 dbBlockedW [shopW] 30 shopW
  have h1 := h.1 (by decide)
  have h2 := (h.2.2 (by decide) (by decide)).1 (by decide)
  exact ⟨h1.trans (by decide), h2.trans (by decide)⟩

/-- C10: a signature-verified webhook event whose resource carries no
subscription identifier, or whose identifier matches no stored
`paypal_subscription_id`, is acknowledged with HTTP 200 and
`received: true`, and the database — subscriptions and payments included —
is returned completely unchanged. -/
theorem paypalWebhook_unknown_subscription_noop
    (now : Int) (usage : Usage) (planSync : Option String) (ev : WebhookEvent) (db : DB)
    (h : webhookSubscriptionId ev.resource = none
       ∨ ∀ e ∈ db.subs, e.2.paypal_subscription_id ≠ webhookSubscriptionId ev.resource) :
    paypalWebhook now usage planSync ev db
      = (db, { httpStatus := 200, received := true, renewed := false }) := by
  unfold paypalWebhook
  rcases h with h | h
  · simp [h, jsStrTruthy]
  · by_cases hs : jsStrTruthy (webhookSubscriptionId ev.resource)
    · have hfd : List.find? (fun e =>
          e.2.paypal_subscription_id == some ((webhookSubscriptionId ev.resource).getD ""))
          db.subs = none := by
        rw [List.find?_eq_none]
        intro e he
        cases hv : webhookSubscriptionId ev.resource with
        | none => simp [hv, jsStrTruthy] at hs
        | some s =>
          have hne := h e he
          rw [hv] at hne
          simp [hv]
          exact hne
      simp [hs, hfd]
    · simp [hs]

/-- Witness for `paypalWebhook_unknown_subscription_noop`: a verified
payment event with no resource identifiers at all is acknowledged and
changes nothing. -/
theorem paypalWebhook_unknown_subscription_noop_witness :
    paypalWebhook 0 ⟨1, 1⟩ none evNoSub dbAny
      = (dbAny, { httpStatus := 200, received := true, renewed := false }) :=
  paypalWebhook_unknown_subscription_noop 0 ⟨1, 1⟩ none evNoSub dbAny (Or.inl (by decide))

/-- C6 (code-bug exhibit): with usage of 2 shops and 5 professionals — which
exceeds the requested tier `basic_1`'s limits of 1 shop and 2
professionals — the Create validation nevertheless accepts the request and
persists `pending_plan_code = 'basic_1'`: the guard compares the usage
against the usage-derived tier (`pricing.tier`, which accommodates the usage
by construction), never against the requested tier, although its own error
message speaks of the selected plan. -/
theorem paypalCreateSubscription_accepts_undersized_plan :
    paypalCreateSubscriptionValidate "basic_1" true ⟨2, 5⟩
        = CreateSubOutcome.accepted "basic_1"
    ∧ (paypalCreateSubscription 0 8 "basic_1" true ⟨2, 5⟩ "SUBX" "APPROVAL_PENDING" dbCreate).2
        = CreateSubOutcome.accepted "basic_1"
    ∧ (findSub (paypalCreateSubscription 0 8 "basic_1" true ⟨2, 5⟩ "SUBX" "APPROVAL_PENDING"
          dbCreate).1 8).map (fun s => s.pending_plan_code) = some (some "basic_1")
    ∧ getTierForCode (some "basic_1")
        = some { code := "basic_1", name := "Básico 1", priceDop := 1000,
                 limits := { shops := 1, professionals := 2 } }
    ∧ ((2 : Int) > 1 ∧ (5 : Int) > 2) := by
  decide
